import Mathlib

set_option linter.unusedVariables false

/-!
Verification of the scoring-metric and HTTP-glue behaviour of the Opik
docker-compose example scripts (`quality_tracking_example.py`,
`evaluation_script.py`, `rest_api_demo.py`).

Modelling conventions: Python strings are Lean `String`s; the float scores are
exact rationals `ℚ` (every float these functions produce comes from `+ 0.25`
steps, `min`/`max`, and exact divisions of small integers, so `ℚ` is faithful);
`None`-able parameters are `Option`; code that can raise returns
`Option`/`Except`.  Case folding (`str.lower`, `str.isupper`) is modelled on
ASCII, and `str.split()` splits on ASCII whitespace; the example data is ASCII.
-/

/-- Model of Python `str.lower()`: lower-case every character. -/
def lower (s : String) : String := ⟨s.data.map Char.toLower⟩

/-- Accumulator-based splitter over the character list: `acc` holds the
(reversed) characters of the word currently being read. -/
def splitWsAux : List Char → List Char → List String
  | [], acc => if acc = [] then [] else [String.mk acc.reverse]
  | c :: cs, acc =>
      if c.isWhitespace then
        if acc = [] then splitWsAux cs []
        else String.mk acc.reverse :: splitWsAux cs []
      else splitWsAux cs (c :: acc)

/-- Model of Python `str.split()` with no separator: split on whitespace runs,
dropping empty tokens. -/
def splitWs (s : String) : List String := splitWsAux s.data []

/-- Model of Python `needle in hay` on strings: substring containment. -/
def pyIn (needle hay : String) : Bool := decide (needle.data <:+: hay.data)

/-- Model of Python `s.count(c)` for a single-character argument. -/
def countChar (s : String) (c : Char) : Nat := s.data.count c

/-- Model of Python `s and s[0].isupper()`: `False` on the empty string,
otherwise whether the first character is an upper-case letter. -/
def firstIsUpper (s : String) : Bool :=
  match s.data with
  | [] => false
  | c :: _ => c.isUpper

/-- Model of the Python condition
`reference and any(word.lower() in output.lower() for word in reference.split())`
from `ResponseQuality.score`; `reference` falsy means `None` or `""`. -/
def refAddresses (output : String) (reference : Option String) : Bool :=
  match reference with
  | none => false
  | some r =>
      if r = "" then false
      else (splitWs r).any (fun word => pyIn (lower word) (lower output))

/-- Embedding of `ResponseQuality.score` (`quality_tracking_example.py`,
lines 37-56): starts from `0.0` and sequentially adds four `0.25` bonuses. -/
def ResponseQuality.score (output : String) (reference : Option String) : ℚ :=
  let score : ℚ := 0
  let score := if 50 < output.length then score + 1/4 else score
  let score := if refAddresses output reference = true then score + 1/4 else score
  let score := if 1 ≤ countChar output '.' ∧ 5 ≤ countChar output ' ' then score + 1/4 else score
  let score := if firstIsUpper output = true then score + 1/4 else score
  score

/-- Word set `set(s.lower().split())` used by `Relevance.score`. -/
def wordSet (s : String) : Finset String := (splitWs (lower s)).toFinset

/-- Embedding of `Relevance.score` (`quality_tracking_example.py`, lines 66-78):
overlap of the lowered word sets of input and output, guarded against an
absent/empty input and an empty word set, clamped by `min (- , 1)`. -/
def Relevance.score (output : String) (input : Option String) : ℚ :=
  match input with
  | none => 0
  | some inp =>
      if inp = "" then 0
      else
        let question_words := wordSet inp
        let answer_words := wordSet output
        let common_words := question_words ∩ answer_words
        let relevance_score : ℚ :=
          if question_words.Nonempty then (common_words.card : ℚ) / (question_words.card : ℚ)
          else 0
        min relevance_score 1

/-- Configuration state stored by `Conciseness.__init__`. -/
structure ConcisenessState where
  name : String
  ideal_length : ℤ
  deriving DecidableEq

/-- Embedding of `Conciseness.__init__` (`quality_tracking_example.py`,
lines 85-87): the Python constructor stores its arguments and performs no
validation, so it cannot raise; the `Option` codomain exposes the (absent)
failure path — a constructor raising a configuration error would return
`none`. -/
def Conciseness.init (name : String) (ideal_length : ℤ) : Option ConcisenessState :=
  some ⟨name, ideal_length⟩

/-- Arithmetic core of `Conciseness.score` as a function of `len(output)`,
exactly as in the Python body after `length = len(output)`, on the
configurations where that body does not raise: it is faithful whenever
`length ≤ ideal_length` (no division is executed) or `ideal_length ≠ 0`.
The remaining case — `ideal_length = 0` with `length > ideal_length`, where
Python raises `ZeroDivisionError` in `excess / self.ideal_length` — is
carried by `Conciseness.scoreE` below. -/
def Conciseness.scoreLen (ideal_length length : ℤ) : ℚ :=
  if length ≤ ideal_length then 1
  else
    let excess : ℤ := length - ideal_length
    let penalty : ℚ := min ((excess : ℚ) / (ideal_length : ℚ)) 1
    max 0 (1 - penalty)

/-- Value-level embedding of `Conciseness.score` (`quality_tracking_example.py`,
lines 89-99), faithful wherever the Python body returns (see
`Conciseness.scoreLen`); the error path of the body lives in
`Conciseness.scoreE`. -/
def Conciseness.score (c : ConcisenessState) (output : String) : ℚ :=
  Conciseness.scoreLen c.ideal_length (output.length : ℤ)

/-- Full embedding of `Conciseness.score` with its error path: when
`length > ideal_length` the Python body evaluates
`penalty = min(excess / self.ideal_length, 1.0)`, which raises
`ZeroDivisionError` exactly when the stored `ideal_length` is `0`; otherwise
the body returns the value of the penalty formula. -/
def Conciseness.scoreE (c : ConcisenessState) (output : String) : Except String ℚ :=
  let length : ℤ := (output.length : ℤ)
  if length ≤ c.ideal_length then Except.ok 1
  else
    let excess : ℤ := length - c.ideal_length
    if c.ideal_length = 0 then Except.error "ZeroDivisionError"
    else
      let penalty : ℚ := min ((excess : ℚ) / (c.ideal_length : ℚ)) 1
      Except.ok (max 0 (1 - penalty))

/-- Embedding of `Accuracy.score` (`quality_tracking_example.py`,
lines 109-118): `none` ("not applicable") when `expected_answer` is falsy,
otherwise the fraction of lowered whitespace tokens of `expected_answer`
found as substrings of the lowered output, with the `if expected_keywords`
guard against an empty token list. -/
def Accuracy.score (output : String) (expected_answer : Option String) : Option ℚ :=
  match expected_answer with
  | none => none
  | some e =>
      if e = "" then none
      else
        let expected_keywords := splitWs (lower e)
        let output_lower := lower output
        let matchCount := (expected_keywords.filter (fun keyword => pyIn keyword output_lower)).length
        some (if expected_keywords ≠ [] then (matchCount : ℚ) / (expected_keywords.length : ℚ) else 0)

/-- Minimal JSON value model for the request/response bodies. -/
inductive Json where
  | str : String → Json
  | num : ℚ → Json
  | bool : Bool → Json
  | null : Json
  | arr : List Json → Json
  | obj : List (String × Json) → Json

/-- Model of Python `j[key]` on a JSON object: `none` is a raised
`KeyError`/`TypeError`. -/
def Json.get? (j : Json) (key : String) : Option Json :=
  match j with
  | Json.obj fields => fields.lookup key
  | _ => none

/-- Model of Python `j[i]` on a JSON array: `none` is a raised
`IndexError`/`TypeError`. -/
def Json.idx? (j : Json) (i : Nat) : Option Json :=
  match j with
  | Json.arr xs => xs[i]?
  | _ => none

/-- JSON request body built by `call_your_model` (`evaluation_script.py`,
lines 32-35) and identically by `call_model_with_tracking`
(`quality_tracking_example.py`, lines 134-137). -/
def requestPayload (question : String) : Json :=
  Json.obj
    [("messages", Json.arr [Json.obj [("role", Json.str "user"), ("content", Json.str question)]]),
     ("temperature", Json.num (7/10))]

/-- HTTP headers built by `call_your_model` (`evaluation_script.py`,
lines 27-30) and identically by `call_model_with_tracking`. -/
def requestHeaders (bearer_token : String) : List (String × String) :=
  [("Authorization", "Bearer " ++ bearer_token), ("Content-Type", "application/json")]

/-- HTTP response handed back by `requests.post`: final status code and
parsed JSON body. -/
structure HttpResponse where
  status : Nat
  body : Json

/-- Behaviour of `requests.Response.raise_for_status` (the requests library):
it raises `HTTPError` exactly for the client-error (4xx) and server-error
(5xx) status codes, i.e. for `400 ≤ status < 600`, and is a no-op otherwise. -/
def raise_for_status (r : HttpResponse) : Except String Unit :=
  if 400 ≤ r.status ∧ r.status < 600 then Except.error "HTTPError" else Except.ok ()

/-- Extraction `response.json()["choices"][0]["message"]["content"]`
(`evaluation_script.py`, line 41); a missing key or index raises, modelled
as `none`. -/
def extractAnswer (body : Json) : Option Json :=
  ((((body.get? "choices").bind (fun c => c.idx? 0)).bind
      (fun m => m.get? "message")).bind (fun m => m.get? "content"))

/-- Embedding of `call_your_model` (`evaluation_script.py`, lines 24-41); the
identical post/raise/extract logic also forms the answer computation of
`call_model_with_tracking` (`quality_tracking_example.py`, lines 126-149).
The network exchange is abstracted by `resp`, the response the POST (with
`requestHeaders bearer_token` and body `requestPayload question`) returned. -/
def call_your_model (question bearer_token : String) (resp : HttpResponse) :
    Except String Json :=
  match raise_for_status resp with
  | Except.error e => Except.error e
  | Except.ok _ =>
      match extractAnswer resp.body with
      | none => Except.error "KeyError"
      | some a => Except.ok a

/-- Outcome of the guarded `requests.get` call inside `check_opik_health`:
either a completed response with some status code, or a raised exception
(connection refused, timeout, ...). -/
inductive HttpOutcome where
  | success : Nat → HttpOutcome
  | exn : String → HttpOutcome
  deriving DecidableEq

/-- Embedding of `check_opik_health` (`rest_api_demo.py`, lines 13-19):
`True` iff the GET completed with status 200; the bare `except:` turns every
raised exception into `False`. -/
def check_opik_health (outcome : HttpOutcome) : Bool :=
  match outcome with
  | HttpOutcome.success status => status == 200
  | HttpOutcome.exn _ => false


/-! Helper lemmas about the string primitives. -/

theorem data_mk (l : List Char) : (String.mk l).data = l := rfl

theorem lower_data (s : String) : (lower s).data = s.data.map Char.toLower := rfl

theorem lower_empty : lower "" = "" := rfl

theorem pyIn_iff (needle hay : String) : pyIn needle hay = true ↔ needle.data <:+: hay.data := by
  simp [pyIn]

/-- Every token produced by `splitWsAux` is a nonempty string. -/
theorem splitWsAux_ne_nil :
    ∀ (cs acc : List Char) (w : String), w ∈ splitWsAux cs acc → w.data ≠ []
  | [], acc, w, hw => by
      simp only [splitWsAux] at hw
      split at hw
      · simp at hw
      · next hacc =>
          rw [List.mem_singleton] at hw
          subst hw
          simpa [data_mk] using hacc
  | c :: cs, acc, w, hw => by
      simp only [splitWsAux] at hw
      split at hw
      · split at hw
        · exact splitWsAux_ne_nil cs [] w hw
        · next hacc =>
            rcases List.mem_cons.mp hw with h | h
            · subst h
              simpa [data_mk] using hacc
            · exact splitWsAux_ne_nil cs [] w h
      · exact splitWsAux_ne_nil cs (c :: acc) w hw

/-- Every token produced by `splitWs` is a nonempty string. -/
theorem splitWs_ne_empty (s : String) (w : String) (hw : w ∈ splitWs s) : w ≠ "" := by
  intro h
  subst h
  exact splitWsAux_ne_nil s.data [] "" hw rfl

/-- Lowering a token of a nonempty word never makes it empty, so it is not a
substring of the empty string. -/
theorem pyIn_lower_empty (w : String) (hw : w.data ≠ []) :
    pyIn (lower w) (lower "") = false := by
  rw [lower_empty]
  rw [Bool.eq_false_iff]
  intro h
  rw [pyIn_iff] at h
  rw [show ("" : String).data = [] from rfl, List.infix_nil] at h
  rw [lower_data, List.map_eq_nil_iff] at h
  exact hw h

/-- Claim C1, counterexample: the expected answer `" "` is nonempty but
whitespace-only, so whitespace-splitting it yields the empty token list; yet
`Accuracy.score` returns the numeric score `0`, not the null
"not applicable" the claim demands. -/
theorem accuracy_whitespace_expected_is_numeric :
    splitWs (lower " ") = [] ∧
    Accuracy.score "x" (some " ") = some 0 ∧
    Accuracy.score "x" (some " ") ≠ none := by
  have h : splitWs (lower " ") = [] := by decide
  refine ⟨h, ?_, ?_⟩
  · simp [Accuracy.score, h]
  · simp [Accuracy.score, h]

/-- Claim C1 (amended): `Accuracy.score` returns the null "not applicable"
score when `expectedAnswer` is absent (`None`) or the empty string; when
`expectedAnswer` is nonempty but whitespace-splitting it yields an empty token
list (a whitespace-only string) the result is the numeric score `0.0`, not
null; in both cases the guarded branch returns without dividing, so no
division by zero occurs. -/
theorem accuracy_not_applicable (output e : String) (hne : e ≠ "")
    (hsplit : splitWs (lower e) = []) :
    Accuracy.score output none = none ∧
    Accuracy.score output (some "") = none ∧
    Accuracy.score output (some e) = some 0 := by
  refine ⟨rfl, by simp [Accuracy.score], ?_⟩
  simp [Accuracy.score, hne, hsplit]

/-- Witness for `accuracy_not_applicable` at `output = "x"`, `e = " "`. -/
theorem accuracy_not_applicable_witness :
    Accuracy.score "x" none = none ∧
    Accuracy.score "x" (some "") = none ∧
    Accuracy.score "x" (some " ") = some 0 :=
  accuracy_not_applicable "x" " " (by decide) (by decide)

/-- Claim C2, counterexample: constructing `Conciseness` with the invalid
`ideal_length = 0` (which satisfies `idealLength ≤ 0`) does not fail with a
configuration error: the constructor succeeds and silently stores `0`. -/
theorem conciseness_init_accepts_zero :
    (0 : ℤ) ≤ 0 ∧
    Conciseness.init "conciseness" 0 ≠ none ∧
    Conciseness.init "conciseness" 0 = some ⟨"conciseness", 0⟩ :=
  ⟨le_refl 0, by simp [Conciseness.init], rfl⟩

/-- Claim C2 (amended): `Conciseness.__init__` performs no validation at all:
for every name and every `ideal_length` — the invalid values
`ideal_length ≤ 0` included — construction succeeds and the given value is
accepted silently and stored unchanged; the stored value is then used by
later scoring, where the invalid configuration `ideal_length = 0` surfaces
as a deferred `ZeroDivisionError` on any output longer than `ideal_length`,
and every other configuration returns the `Conciseness.scoreLen` value. -/
theorem conciseness_init_no_validation (name : String) (ideal_length : ℤ) :
    Conciseness.init name ideal_length = some ⟨name, ideal_length⟩ ∧
    (∀ c, Conciseness.init name ideal_length = some c → c.ideal_length = ideal_length) ∧
    (∀ c, Conciseness.init name ideal_length = some c → ∀ output,
       (ideal_length = 0 → ideal_length < (output.length : ℤ) →
          Conciseness.scoreE c output = Except.error "ZeroDivisionError") ∧
       (ideal_length ≠ 0 →
          Conciseness.scoreE c output =
            Except.ok (Conciseness.scoreLen ideal_length (output.length : ℤ)))) := by
  refine ⟨rfl, ?_, ?_⟩
  · intro c hc
    have h := Option.some.inj hc
    subst h
    rfl
  · intro c hc output
    have h := Option.some.inj hc
    subst h
    constructor
    · intro h0 hlen
      have hne0 : ¬ output.length = 0 := by omega
      simp [Conciseness.scoreE, h0, hne0]
    · intro hne
      by_cases hl : (output.length : ℤ) ≤ ideal_length
      · simp [Conciseness.scoreE, Conciseness.scoreLen, hl]
      · simp [Conciseness.scoreE, Conciseness.scoreLen, hl, hne]

/-- Witness for `conciseness_init_no_validation`: the invalid stored
`ideal_length = 0` raises at scoring time on the three-character output
`"abc"`, and the (also unvalidated) `ideal_length = -5` flows into the
returned score. -/
theorem conciseness_init_no_validation_witness :
    Conciseness.scoreE ⟨"conciseness", 0⟩ "abc" = Except.error "ZeroDivisionError" ∧
    Conciseness.scoreE ⟨"conciseness", -5⟩ "abc" =
      Except.ok (Conciseness.scoreLen (-5) (("abc".length : ℤ))) :=
  ⟨((conciseness_init_no_validation "conciseness" 0).2.2
      ⟨"conciseness", 0⟩ rfl "abc").1 rfl (by decide),
   ((conciseness_init_no_validation "conciseness" (-5)).2.2
      ⟨"conciseness", -5⟩ rfl "abc").2 (by decide)⟩

theorem data_ne_nil (w : String) (h : w ≠ "") : w.data ≠ [] := by
  intro hd
  apply h
  have hw : w = String.mk w.data := rfl
  rw [hw, hd]

/-- The reference-addresses condition of `ResponseQuality.score` is always
false for the empty output: no nonempty lowered token is a substring of `""`. -/
theorem refAddresses_empty (reference : Option String) :
    refAddresses "" reference = false := by
  cases reference with
  | none => rfl
  | some r =>
      simp only [refAddresses]
      split
      · rfl
      · rw [List.any_eq_false]
        intro w hw
        have hne : w.data ≠ [] := data_ne_nil w (splitWs_ne_empty r w hw)
        simp [pyIn_lower_empty w hne]

/-- Claim C8: for every output string and reference, the `ResponseQuality`
score lies in `[0, 1]` (the embedding is a total function, so no input
raises); for the empty output every bonus condition — the first-character
upper-case check included — is false, so the score is exactly `0`. -/
theorem responsequality_bounds (output : String) (reference : Option String) :
    0 ≤ ResponseQuality.score output reference ∧
    ResponseQuality.score output reference ≤ 1 ∧
    ResponseQuality.score "" reference = 0 ∧
    firstIsUpper "" = false := by
  refine ⟨?_, ?_, ?_, rfl⟩
  · simp only [ResponseQuality.score]
    split_ifs <;> norm_num
  · simp only [ResponseQuality.score]
    split_ifs <;> norm_num
  · have h1 : ¬ (50 < ("" : String).length) := by decide
    have h2 : refAddresses "" reference = false := refAddresses_empty reference
    have h3 : ¬ (1 ≤ countChar "" '.' ∧ 5 ≤ countChar "" ' ') := by decide
    have h4 : firstIsUpper "" = false := rfl
    simp [ResponseQuality.score, h1, h2, h3, h4]

/-- Witness for `responsequality_bounds` at `output = "Paris."`,
`reference = none`. -/
theorem responsequality_bounds_witness :
    0 ≤ ResponseQuality.score "Paris." none ∧
    ResponseQuality.score "Paris." none ≤ 1 :=
  ⟨(responsequality_bounds "Paris." none).1, (responsequality_bounds "Paris." none).2.1⟩

/-- Claim C7: `Accuracy.score` returns the null "not applicable" score exactly
when `expectedAnswer` is `None` or the empty string; every other expected
answer yields a numeric value `q` with `0 ≤ q ≤ 1`, which — whenever the
whitespace-split lowercase token list of the expected answer is nonempty — is
the fraction of those tokens found as substrings of the lowercased output;
and `Accuracy.score "4" (some "4") = some 1`. -/
theorem accuracy_null_iff_and_bounds (output : String) (expected_answer : Option String) :
    (Accuracy.score output expected_answer = none ↔
       expected_answer = none ∨ expected_answer = some "") ∧
    (∀ q, Accuracy.score output expected_answer = some q →
       0 ≤ q ∧ q ≤ 1 ∧
       ∀ e, expected_answer = some e → splitWs (lower e) ≠ [] →
         q = (((splitWs (lower e)).filter
                 (fun keyword => pyIn keyword (lower output))).length : ℚ) /
             ((splitWs (lower e)).length : ℚ)) ∧
    Accuracy.score "4" (some "4") = some 1 := by
  refine ⟨?_, ?_, ?_⟩
  · cases expected_answer with
    | none => simp [Accuracy.score]
    | some e =>
        by_cases he : e = ""
        · subst he
          simp [Accuracy.score]
        · simp [Accuracy.score, he]
  · intro q hq
    cases expected_answer with
    | none => simp [Accuracy.score] at hq
    | some e =>
        by_cases he : e = ""
        · subst he
          simp [Accuracy.score] at hq
        · simp only [Accuracy.score, if_neg he] at hq
          have hq' := (Option.some.inj hq).symm
          by_cases hk : splitWs (lower e) = []
          · rw [if_neg (fun hne => hne hk)] at hq'
            subst hq'
            refine ⟨le_refl 0, by norm_num, ?_⟩
            intro e' he' hke'
            exact absurd (Option.some.inj he' ▸ hk) hke'
          · rw [if_pos hk] at hq'
            have hlenpos : 0 < ((splitWs (lower e)).length : ℚ) := by
              have : 0 < (splitWs (lower e)).length :=
                List.length_pos.mpr hk
              exact_mod_cast this
            have hle : (((splitWs (lower e)).filter
                (fun keyword => pyIn keyword (lower output))).length : ℚ) ≤
                ((splitWs (lower e)).length : ℚ) := by
              exact_mod_cast List.length_filter_le _ _
            subst hq'
            refine ⟨div_nonneg (by positivity) (le_of_lt hlenpos), ?_, ?_⟩
            · exact (div_le_one hlenpos).mpr hle
            · intro e' he' hke'
              rw [Option.some.inj he']
  · have h : splitWs (lower "4") = ["4"] := by decide
    have h2 : pyIn "4" (lower "4") = true := by decide
    have hne : ¬(("4" : String) = "") := by decide
    norm_num [Accuracy.score, h, h2, hne]

/-- Witness for `accuracy_null_iff_and_bounds`: the nested hypotheses are
satisfiable at `output = "4"`, `expectedAnswer = some "4"`, where the returned
numeric value `1` indeed satisfies the bounds. -/
theorem accuracy_null_iff_and_bounds_witness :
    Accuracy.score "x" (some "") = none ∧ (0 ≤ (1 : ℚ) ∧ (1 : ℚ) ≤ 1) := by
  have hx := accuracy_null_iff_and_bounds "x" (some "")
  have h4 := accuracy_null_iff_and_bounds "4" (some "4")
  have hb := h4.2.1 1 h4.2.2
  exact ⟨hx.1.mpr (Or.inr rfl), hb.1, hb.2.1⟩

/-- Characterisation of the reference condition of `ResponseQuality.score`:
it holds iff a reference is provided and some whitespace-split reference word,
lowered, occurs as a substring of the lowered output. -/
theorem refAddresses_iff (output : String) (reference : Option String) :
    refAddresses output reference = true ↔
      ∃ r, reference = some r ∧ ∃ w ∈ splitWs r, pyIn (lower w) (lower output) = true := by
  cases reference with
  | none => simp [refAddresses]
  | some r =>
      by_cases hr : r = ""
      · subst hr
        simp only [refAddresses, if_pos rfl]
        constructor
        · intro h
          exact absurd h (by simp)
        · rintro ⟨r', hr', w, hw, hpw⟩
          have h' : ("" : String) = r' := Option.some.inj hr'
          subst h'
          rw [show splitWs "" = [] from rfl] at hw
          exact absurd hw (List.not_mem_nil w)
      · simp [refAddresses, hr, List.any_eq_true]

/-- Characterisation of the capitalisation condition of
`ResponseQuality.score`: it holds iff the output has a first character and
that character is upper case. -/
theorem firstIsUpper_iff (output : String) :
    firstIsUpper output = true ↔
      ∃ c, output.data.head? = some c ∧ c.isUpper = true := by
  cases hd : output.data with
  | nil => simp [firstIsUpper, hd]
  | cons c cs => simp [firstIsUpper, hd]

open Classical in
/-- Claim C3: for every output and optional reference, `ResponseQuality.score`
equals the sum of four independent `0.25` increments: `0.25` if
`len(output) > 50`; `0.25` if a reference is provided and some
whitespace-split reference word, case-insensitively, occurs as a substring of
the output; `0.25` if the output contains at least one `'.'` and at least five
spaces; `0.25` if the first character of the output is upper case.  In
particular `ResponseQuality.score "Paris." none = 0.25`. -/
theorem responsequality_formula (output : String) (reference : Option String) :
    (ResponseQuality.score output reference =
      (if 50 < output.length then (1 : ℚ)/4 else 0) +
      (if ∃ r, reference = some r ∧ ∃ w ∈ splitWs r, pyIn (lower w) (lower output) = true
        then (1 : ℚ)/4 else 0) +
      (if 1 ≤ countChar output '.' ∧ 5 ≤ countChar output ' ' then (1 : ℚ)/4 else 0) +
      (if ∃ c, output.data.head? = some c ∧ c.isUpper = true then (1 : ℚ)/4 else 0)) ∧
    ResponseQuality.score "Paris." none = 1/4 := by
  constructor
  · simp only [← refAddresses_iff output reference, ← firstIsUpper_iff output,
      ResponseQuality.score]
    split_ifs <;> norm_num
  · have h1 : ¬ (50 < "Paris.".length) := by decide
    have h2 : refAddresses "Paris." none = false := by decide
    have h3 : ¬ (1 ≤ countChar "Paris." '.' ∧ 5 ≤ countChar "Paris." ' ') := by decide
    have h4 : firstIsUpper "Paris." = true := by decide
    norm_num [ResponseQuality.score, h1, h2, h3, h4]

/-- Claim C4: `Relevance.score` equals the size of the intersection of the
lowercased input word set with the lowercased output word set, divided by the
size of the input word set and clamped to at most `1`, whenever the input word
set is nonempty; and it equals `0` whenever the input is absent or its word
set is empty. -/
theorem relevance_formula (output : String) (input : Option String) :
    (input = none → Relevance.score output input = 0) ∧
    (∀ inp, input = some inp → wordSet inp = ∅ → Relevance.score output input = 0) ∧
    (∀ inp, input = some inp → wordSet inp ≠ ∅ →
       Relevance.score output input =
         min (((wordSet inp ∩ wordSet output).card : ℚ) / ((wordSet inp).card : ℚ)) 1) := by
  refine ⟨?_, ?_, ?_⟩
  · intro h
    subst h
    rfl
  · intro inp h hws
    subst h
    by_cases hinp : inp = ""
    · subst hinp
      rfl
    · have hnon : ¬ (wordSet inp).Nonempty := by
        rw [Finset.nonempty_iff_ne_empty]
        intro h
        exact h hws
      simp [Relevance.score, hinp, hnon, min_def]
  · intro inp h hws
    subst h
    have hinp : inp ≠ "" := by
      intro h
      subst h
      exact hws rfl
    have hns : (wordSet inp).Nonempty := Finset.nonempty_iff_ne_empty.mpr hws
    simp [Relevance.score, hinp, hns]

/-- Witness for `relevance_formula`: concrete instantiations discharging each
hypothesis. -/
theorem relevance_formula_witness :
    Relevance.score "the cat" (some "the dog") =
      min (((wordSet "the dog" ∩ wordSet "the cat").card : ℚ) /
             ((wordSet "the dog").card : ℚ)) 1 ∧
    Relevance.score "the cat" none = 0 ∧
    Relevance.score "the cat" (some " ") = 0 :=
  ⟨(relevance_formula "the cat" (some "the dog")).2.2 "the dog" rfl (by decide),
   (relevance_formula "the cat" none).1 rfl,
   (relevance_formula "the cat" (some " ")).2.1 " " rfl (by decide)⟩

/-- Claim C6, counterexample: for the whitespace-only input `" "` the input
word set is empty, hence a subset of the output word set of `"x"` — the
output word set is a superset — yet `Relevance.score` returns `0`, not the
`1.0` the claim demands for every such pair. -/
theorem relevance_superset_not_one :
    wordSet " " ⊆ wordSet "x" ∧
    Relevance.score "x" (some " ") = 0 ∧
    (0 : ℚ) ≠ 1 := by
  refine ⟨by decide, ?_, by norm_num⟩
  have h : wordSet " " = ∅ := by decide
  norm_num [Relevance.score, h, min_def]

/-- Claim C6 (amended): `Relevance.score` returns `0.0` for every output when
the input is empty, and returns `1.0` whenever the input's lowercased word set
is nonempty and the output's lowercased word set is a superset of it (when the
input word set is empty the score is `0.0`, not `1.0`). -/
theorem relevance_empty_and_superset (output : String) :
    Relevance.score output (some "") = 0 ∧
    (∀ inp, wordSet inp ≠ ∅ → wordSet inp ⊆ wordSet output →
       Relevance.score output (some inp) = 1) := by
  constructor
  · rfl
  · intro inp hne hsub
    have hinp : inp ≠ "" := by
      intro h
      subst h
      exact hne rfl
    have hns : (wordSet inp).Nonempty := Finset.nonempty_iff_ne_empty.mpr hne
    have hinter : wordSet inp ∩ wordSet output = wordSet inp :=
      Finset.inter_eq_left.mpr hsub
    have hcard : ((wordSet inp).card : ℚ) ≠ 0 := by
      have := Finset.card_pos.mpr hns
      positivity
    simp only [Relevance.score, if_neg hinp, if_pos hns, hinter]
    rw [div_self hcard]
    norm_num [min_def]

/-- Witness for `relevance_empty_and_superset` at `output = "a b"`,
`inp = "a"`. -/
theorem relevance_empty_and_superset_witness :
    Relevance.score "a b" (some "a") = 1 :=
  (relevance_empty_and_superset "a b").2 "a" (by decide) (by decide)

theorem scoreLen_of_le (i l : ℤ) (h : l ≤ i) : Conciseness.scoreLen i l = 1 := by
  simp [Conciseness.scoreLen, h]

theorem scoreLen_of_gt (i l : ℤ) (h : i < l) :
    Conciseness.scoreLen i l =
      max 0 (1 - min (((l - i : ℤ) : ℚ) / (i : ℚ)) 1) := by
  simp [Conciseness.scoreLen, not_le.mpr h]

/-- Closed form of the conciseness score on the penalty segment
`ideal < length ≤ 2 * ideal`. -/
theorem scoreLen_mid (i l : ℤ) (hpos : 0 < i) (h1 : i < l) (h2 : l ≤ 2 * i) :
    Conciseness.scoreLen i l = 1 - ((l - i : ℤ) : ℚ) / (i : ℚ) := by
  rw [scoreLen_of_gt i l h1]
  have hIpos : (0 : ℚ) < (i : ℚ) := by exact_mod_cast hpos
  have hl : (i : ℚ) < (l : ℚ) := by exact_mod_cast h1
  have h2' : (l : ℚ) ≤ 2 * (i : ℚ) := by exact_mod_cast h2
  have hle1 : ((l - i : ℤ) : ℚ) / (i : ℚ) ≤ 1 := by
    rw [div_le_one hIpos]
    push_cast
    linarith
  have hge0 : 0 ≤ ((l - i : ℤ) : ℚ) / (i : ℚ) := by
    apply div_nonneg _ (le_of_lt hIpos)
    push_cast
    linarith
  rw [min_eq_left hle1, max_eq_right (by linarith)]

theorem scoreLen_le_one (i l : ℤ) (hpos : 0 < i) : Conciseness.scoreLen i l ≤ 1 := by
  by_cases h : l ≤ i
  · rw [scoreLen_of_le i l h]
  · rw [scoreLen_of_gt i l (not_le.mp h)]
    have hIpos : (0 : ℚ) < (i : ℚ) := by exact_mod_cast hpos
    have hl : (i : ℚ) < (l : ℚ) := by exact_mod_cast not_le.mp h
    have hge0 : 0 ≤ ((l - i : ℤ) : ℚ) / (i : ℚ) := by
      apply div_nonneg _ (le_of_lt hIpos)
      push_cast
      linarith
    have hmin : 0 ≤ min (((l - i : ℤ) : ℚ) / (i : ℚ)) 1 := le_min hge0 (by norm_num)
    apply max_le (by norm_num)
    linarith

/-- Past twice the ideal length the conciseness score sits at the floor `0`. -/
theorem scoreLen_floor (i l : ℤ) (hpos : 0 < i) (h : 2 * i ≤ l) :
    Conciseness.scoreLen i l = 0 := by
  have h1 : i < l := by linarith
  rw [scoreLen_of_gt i l h1]
  have hIpos : (0 : ℚ) < (i : ℚ) := by exact_mod_cast hpos
  have h' : 2 * (i : ℚ) ≤ (l : ℚ) := by exact_mod_cast h
  have hge1 : (1 : ℚ) ≤ ((l - i : ℤ) : ℚ) / (i : ℚ) := by
    rw [one_le_div hIpos]
    push_cast
    linarith
  rw [min_eq_right hge1]
  norm_num

theorem scoreLen_anti (i l₁ l₂ : ℤ) (hpos : 0 < i) (h1 : i ≤ l₁) (h12 : l₁ ≤ l₂) :
    Conciseness.scoreLen i l₂ ≤ Conciseness.scoreLen i l₁ := by
  by_cases hc : l₁ ≤ i
  · rw [scoreLen_of_le i l₁ hc]
    exact scoreLen_le_one i l₂ hpos
  · have hc' : i < l₁ := not_le.mp hc
    rw [scoreLen_of_gt i l₁ hc', scoreLen_of_gt i l₂ (lt_of_lt_of_le hc' h12)]
    have hIpos : (0 : ℚ) < (i : ℚ) := by exact_mod_cast hpos
    have h12' : ((l₁ - i : ℤ) : ℚ) ≤ ((l₂ - i : ℤ) : ℚ) := by
      push_cast
      have : (l₁ : ℚ) ≤ (l₂ : ℚ) := by exact_mod_cast h12
      linarith
    gcongr

theorem scoreLen_strict (i l₁ l₂ : ℤ) (hpos : 0 < i) (h1 : i ≤ l₁) (h12 : l₁ < l₂)
    (h2 : l₂ ≤ 2 * i) :
    Conciseness.scoreLen i l₂ < Conciseness.scoreLen i l₁ := by
  have hIpos : (0 : ℚ) < (i : ℚ) := by exact_mod_cast hpos
  have hl2 : i < l₂ := lt_of_le_of_lt h1 h12
  rw [scoreLen_mid i l₂ hpos hl2 h2]
  by_cases hc : l₁ ≤ i
  · rw [scoreLen_of_le i l₁ hc]
    have hnum : (0 : ℚ) < ((l₂ - i : ℤ) : ℚ) := by
      push_cast
      have : (i : ℚ) < (l₂ : ℚ) := by exact_mod_cast hl2
      linarith
    have : (0 : ℚ) < ((l₂ - i : ℤ) : ℚ) / (i : ℚ) := div_pos hnum hIpos
    linarith
  · have hc' : i < l₁ := not_le.mp hc
    rw [scoreLen_mid i l₁ hpos hc' (le_of_lt (lt_of_lt_of_le h12 h2))]
    have hlt : ((l₁ - i : ℤ) : ℚ) < ((l₂ - i : ℤ) : ℚ) := by
      push_cast
      have : (l₁ : ℚ) < (l₂ : ℚ) := by exact_mod_cast h12
      linarith
    have : ((l₁ - i : ℤ) : ℚ) / (i : ℚ) < ((l₂ - i : ℤ) : ℚ) / (i : ℚ) := by gcongr
    linarith

/-- Claim C5: for a positive `ideal_length` (the default is `200`),
`Conciseness.score` is `1` when `len(output) ≤ ideal_length` and
`max 0 (1 - min ((len(output) - ideal_length)/ideal_length) 1)` otherwise;
as a function of the length it is monotonically non-increasing beyond
`ideal_length`, strictly decreasing on the segment up to `2 * ideal_length`
where it reaches the floor, and constantly `0` from `2 * ideal_length` on. -/
theorem conciseness_formula_and_monotone (ideal_length : ℤ) (hpos : 0 < ideal_length) :
    (∀ name output, Conciseness.score ⟨name, ideal_length⟩ output =
       Conciseness.scoreLen ideal_length (output.length : ℤ)) ∧
    (∀ l : ℤ, l ≤ ideal_length → Conciseness.scoreLen ideal_length l = 1) ∧
    (∀ l : ℤ, ideal_length < l →
       Conciseness.scoreLen ideal_length l =
         max 0 (1 - min (((l - ideal_length : ℤ) : ℚ) / (ideal_length : ℚ)) 1)) ∧
    (∀ l₁ l₂ : ℤ, ideal_length ≤ l₁ → l₁ ≤ l₂ →
       Conciseness.scoreLen ideal_length l₂ ≤ Conciseness.scoreLen ideal_length l₁) ∧
    (∀ l₁ l₂ : ℤ, ideal_length ≤ l₁ → l₁ < l₂ → l₂ ≤ 2 * ideal_length →
       Conciseness.scoreLen ideal_length l₂ < Conciseness.scoreLen ideal_length l₁) ∧
    (∀ l : ℤ, 2 * ideal_length ≤ l → Conciseness.scoreLen ideal_length l = 0) :=
  ⟨fun _ _ => rfl,
   fun l h => scoreLen_of_le ideal_length l h,
   fun l h => scoreLen_of_gt ideal_length l h,
   fun l₁ l₂ h1 h12 => scoreLen_anti ideal_length l₁ l₂ hpos h1 h12,
   fun l₁ l₂ h1 h12 h2 => scoreLen_strict ideal_length l₁ l₂ hpos h1 h12 h2,
   fun l h => scoreLen_floor ideal_length l hpos h⟩

/-- Witness for `conciseness_formula_and_monotone` at the default
`ideal_length = 200` and concrete lengths. -/
theorem conciseness_formula_and_monotone_witness :
    Conciseness.scoreLen 200 100 = 1 ∧
    Conciseness.scoreLen 200 300 ≤ Conciseness.scoreLen 200 250 ∧
    Conciseness.scoreLen 200 400 < Conciseness.scoreLen 200 300 ∧
    Conciseness.scoreLen 200 500 = 0 := by
  have h := conciseness_formula_and_monotone 200 (by norm_num)
  exact ⟨h.2.1 100 (by norm_num),
         h.2.2.2.1 250 300 (by norm_num) (by norm_num),
         h.2.2.2.2.1 300 400 (by norm_num) (by norm_num) (by norm_num),
         h.2.2.2.2.2 500 (by norm_num)⟩

/-- Claim C9, counterexample: an HTTP `304 Not Modified` response has a
non-2xx status, yet `requests.Response.raise_for_status` raises only for
statuses in `[400, 600)`, so `call_your_model` does not raise there: it
returns the extracted answer. -/
theorem call_model_304_does_not_raise :
    (¬ (200 ≤ 304 ∧ 304 < 300)) ∧
    call_your_model "q" "tok"
      ⟨304, Json.obj [("choices", Json.arr [Json.obj [("message",
         Json.obj [("role", Json.str "assistant"), ("content", Json.str "hi")])]])]⟩ =
      Except.ok (Json.str "hi") := by
  constructor
  · decide
  · rfl

/-- Claim C9 (amended): for every question the model caller posts exactly the
JSON body `{messages: [{role: "user", content: question}], temperature: 0.7}`
with a bearer-token Authorization header; given the response, it raises
exactly when the status is a client or server error (`400 ≤ status < 600`) —
a non-2xx status outside that range, such as 304, does not raise — and
otherwise returns `choices[0].message.content` of the response body as the
answer (raising a `KeyError` if that path is missing). -/
theorem call_model_contract (question bearer_token : String) (resp : HttpResponse) :
    (requestPayload question =
       Json.obj [("messages", Json.arr [Json.obj [("role", Json.str "user"),
         ("content", Json.str question)]]), ("temperature", Json.num (7/10))]) ∧
    (requestHeaders bearer_token =
       [("Authorization", "Bearer " ++ bearer_token),
        ("Content-Type", "application/json")]) ∧
    (400 ≤ resp.status → resp.status < 600 →
       call_your_model question bearer_token resp = Except.error "HTTPError") ∧
    (¬ (400 ≤ resp.status ∧ resp.status < 600) →
       ∀ a, extractAnswer resp.body = some a →
         call_your_model question bearer_token resp = Except.ok a) := by
  refine ⟨rfl, rfl, ?_, ?_⟩
  · intro h1 h2
    simp [call_your_model, raise_for_status, h1, h2]
  · intro h a ha
    simp [call_your_model, raise_for_status, h, ha]

/-- Witness for `call_model_contract`: a 500 response raises, a 200 response
with a well-formed body returns its `choices[0].message.content`. -/
theorem call_model_contract_witness :
    call_your_model "q" "tok" ⟨500, Json.null⟩ = Except.error "HTTPError" ∧
    call_your_model "q" "tok"
      ⟨200, Json.obj [("choices", Json.arr [Json.obj [("message",
         Json.obj [("content", Json.str "Paris")])]])]⟩ =
      Except.ok (Json.str "Paris") := by
  constructor
  · exact (call_model_contract "q" "tok" ⟨500, Json.null⟩).2.2.1
      (by norm_num) (by norm_num)
  · exact (call_model_contract "q" "tok"
      ⟨200, Json.obj [("choices", Json.arr [Json.obj [("message",
         Json.obj [("content", Json.str "Paris")])]])]⟩).2.2.2
      (by norm_num) (Json.str "Paris") rfl

/-- Claim C10: `check_opik_health` is a total function of the request outcome
and never propagates an exception: it returns `true` exactly when the GET
completed with HTTP status 200, and `false` both when the request raised any
exception and when it completed with any other status code. -/
theorem check_opik_health_total (outcome : HttpOutcome) :
    (check_opik_health outcome = true ↔ outcome = HttpOutcome.success 200) ∧
    (∀ m, outcome = HttpOutcome.exn m → check_opik_health outcome = false) ∧
    (∀ s, outcome = HttpOutcome.success s → s ≠ 200 →
       check_opik_health outcome = false) := by
  refine ⟨?_, ?_, ?_⟩
  · cases outcome with
    | success s => simp [check_opik_health]
    | exn m => simp [check_opik_health]
  · intro m h
    subst h
    rfl
  · intro s h hs
    subst h
    simp [check_opik_health, hs]

/-- Witness for `check_opik_health_total` at a raised exception, a non-200
status and the healthy status. -/
theorem check_opik_health_total_witness :
    check_opik_health (HttpOutcome.exn "timeout") = false ∧
    check_opik_health (HttpOutcome.success 503) = false ∧
    check_opik_health (HttpOutcome.success 200) = true := by
  refine ⟨?_, ?_, ?_⟩
  · exact (check_opik_health_total (HttpOutcome.exn "timeout")).2.1 "timeout" rfl
  · exact (check_opik_health_total (HttpOutcome.success 503)).2.2 503 rfl (by norm_num)
  · exact (check_opik_health_total (HttpOutcome.success 200)).1.mpr rfl
